import Mathlib

set_option maxRecDepth 8000

/-
Verification of the transfer-counselor query-routing and session subsystem.

This file gives a shallow embedding, in Lean, of the Python modules

  transfer_counselor/core/routing.py      (QueryRouter)
  transfer_counselor/utils/fallback_responses.py
  transfer_counselor/core/session.py      (SessionManager)
  transfer_counselor/core/system.py       (EnhancedTransferCounselorSystem)

and proves properties of the embedded definitions.  Conventions used by the
embedding:

  * Python strings are Lean `String`; string operations (`lower`, `in`,
    `startswith`, slicing, `join`, `title`, single-character `replace`) are
    re-implemented over `String.data` so that every definition reduces in the
    kernel.  All data handled by this program is ASCII, for which these
    re-implementations agree with the Python operations character for
    character.
  * `datetime.now()` is modelled by an explicit `Time` (integer) parameter
    threaded into every operation that reads the clock; `uuid.uuid4()` by an
    explicit fresh-identifier parameter.
  * The SQLite table behind `SessionManager` is modelled as an association
    list from session id to the (deserialised) stored row.  A durable write
    that raises inside the Python `try`/`except` is modelled by a boolean
    parameter (`sf` / `dbFail`) saying whether that particular write fails;
    the surrounding `except` clause only logs, which the model reflects by
    leaving the state unchanged in the failing case.
  * Code that can raise is embedded with `Except`; code that cannot raise is
    embedded as a total function returning the new state.
-/

namespace TransferCounselor

/-! ## Python string primitives -/

/-- Python `needle in hay` on lists of characters: `n` occurs contiguously
inside the second list.  (Python containment is true for the empty needle.) -/
def containsList (n : List Char) : List Char → Bool
  | [] => n.isEmpty
  | c :: t => List.isPrefixOf n (c :: t) || containsList n t

/-- Python `pat in hay` for strings. -/
def strContains (hay pat : String) : Bool :=
  containsList pat.data hay.data

/-- Python `s.lower()` (ASCII). -/
def pyLower (s : String) : String :=
  ⟨s.data.map Char.toLower⟩

/-- Python `s.startswith(p)`. -/
def pyStartsWith (s p : String) : Bool :=
  List.isPrefixOf p.data s.data

/-- Python `s[:n]` (slicing counts code points). -/
def pyTake (s : String) (n : Nat) : String :=
  ⟨s.data.take n⟩

/-- Python `"sep".join(xs)` on character lists. -/
def joinWith (sep : List Char) : List (List Char) → List Char
  | [] => []
  | [x] => x
  | x :: y :: t => x ++ sep ++ joinWith sep (y :: t)

/-- Python `sep.join(xs)` for strings. -/
def pyJoin (sep : String) (xs : List String) : String :=
  ⟨joinWith sep.data (xs.map String.data)⟩

/-- Helper for Python `s.title()`: the boolean records whether the previous
character was alphabetic. -/
def pyTitleAux : List Char → Bool → List Char
  | [], _ => []
  | c :: t, prevAlpha =>
    if c.isAlpha then
      (if prevAlpha then c.toLower else c.toUpper) :: pyTitleAux t true
    else c :: pyTitleAux t false

/-- Python `s.title()` (ASCII). -/
def pyTitle (s : String) : String :=
  ⟨pyTitleAux s.data false⟩

/-- Python `s.replace("_", " ")`: for a single-character pattern and
replacement, Python replace is exactly a character substitution. -/
def replaceUnderscores (s : String) : String :=
  ⟨s.data.map (fun c => if c = '_' then ' ' else c)⟩

/-! ## routing.py — `QueryRouter`

`self.agent_keywords`, in its Python insertion (definition) order. -/

def agent_keywords : List (String × List String) :=
  [ ("financial_aid",
      [ "cost", "money", "fafsa", "financial", "scholarship", "afford",
        "tuition", "grant", "expensive", "budget", "payment", "aid",
        "funding", "cal grant", "pell grant" ]),
    ("course_difficulty",
      [ "difficult", "study", "academic", "course", "struggling", "calculus",
        "chemistry", "physics", "roadmap", "transfer", "plan", "schedule",
        "semester", "prerequisites", "sequence", "math", "science", "english",
        "requirements", "units", "classes", "curriculum", "igetc", "breadth",
        "ge", "general education", "lower division", "upper division",
        "planning", "pathway", "preparation", "recommend", "suggestion" ]),
    ("career_counselor",
      [ "major", "career", "job", "business", "psychology", "engineering",
        "computer science", "prospects", "employment", "profession",
        "occupation", "work", "salary", "internship", "networking" ]) ]

/-- `sum(1 for keyword in keywords if keyword in query_lower)`. -/
def keywordScore (query_lower : String) (keywords : List String) : Nat :=
  keywords.countP (fun kw => strContains query_lower kw)

/-- The `agent_scores` dict built by `route_query`: pairs are inserted in
table definition order and only agents with a positive score are inserted. -/
def positiveScores (query : String) : List (String × Nat) :=
  (agent_keywords.map (fun p => (p.1, keywordScore (pyLower query) p.2))).filter
    (fun p => decide (0 < p.2))

/-- Python `max(agent_scores, key=agent_scores.get)` over the insertion-ordered
dict: the fold replaces the current best only on a strictly greater value, so
the first key attaining the maximum wins. -/
def maxByScore : List (String × Nat) → Option (String × Nat)
  | [] => none
  | p :: t => some (t.foldl (fun best x => if best.2 < x.2 then x else best) p)

/-- `QueryRouter.route_query`. -/
def route_query (query : String) : String :=
  match maxByScore (positiveScores query) with
  | some best => best.1
  | none => "coordinator"

/-- Written from the specification text, not from the code: lower-case the
query, score each specialist by the number of its keywords occurring as
substrings, return the first specialist in keyword-table definition order
achieving the maximum score, and return `coordinator` when every specialist
scores zero. -/
def route_query_spec (query : String) : String :=
  let lowq := pyLower query
  let scores := agent_keywords.map (fun p => (p.1, p.2.countP (fun kw => strContains lowq kw)))
  let best := (scores.map Prod.snd).foldl max 0
  if best = 0 then "coordinator"
  else
    match scores.find? (fun p => p.2 == best) with
    | some p => p.1
    | none => "coordinator"

/-- Result record of `QueryRouter.get_routing_explanation`: the selected agent,
per-agent `(score, matched_keywords)` details, and the reasoning string. -/
structure RoutingExplanation where
  selected_agent : String
  agent_scores : List (String × Nat × List String)
  reasoning : String

/-- `QueryRouter.get_routing_explanation`. -/
def get_routing_explanation (query : String) : RoutingExplanation :=
  let query_lower := pyLower query
  let agent_details := agent_keywords.map (fun p =>
    let matched := p.2.filter (fun kw => strContains query_lower kw)
    (p.1, (matched.length, matched)))
  { selected_agent := route_query query
    agent_scores := agent_details
    reasoning := "Selected " ++ route_query query ++ " based on keyword matching" }

/-! ## fallback_responses.py -/

/-- `_get_financial_aid_fallback`. -/
def get_financial_aid_fallback (user_lower : String) : String :=
  if ["cost", "expensive", "afford", "money", "tuition"].any
      (fun word => strContains user_lower word) then
    "For UC/CSU costs and financial aid:

**UC Schools (2024-2025):**
- Tuition & Fees: ~$14,000-15,000/year (residents)
- Total Cost: ~$35,000-40,000/year (with room/board)

**CSU Schools:**
- Tuition & Fees: ~$6,000-7,000/year (residents)
- Total Cost: ~$25,000-30,000/year (with room/board)

**Financial Aid Steps:**
1. Complete FAFSA by March 2nd priority deadline
2. Apply for Cal Grant (automatic with FAFSA)
3. Check school-specific scholarships and grants
4. Consider work-study programs

Visit your campus financial aid office for personalized guidance!"
  else if ["fafsa", "financial aid", "scholarship"].any
      (fun word => strContains user_lower word) then
    "Financial Aid for Transfer Students:

**FAFSA (Free Application for Federal Student Aid):**
- Priority deadline: March 2nd annually
- Required for federal grants, loans, work-study
- Use your tax information from previous year

**Key Programs:**
- Pell Grant: Up to $7,395/year (no repayment needed)
- Cal Grant A: Covers tuition at UC/CSU
- Cal Grant B: Living expenses + tuition (after year 1)
- Federal Direct Loans: Borrow responsibly

**Transfer Tips:**
- Apply early for best aid packages
- Complete verification documents quickly
- Check each campus\u0027s scholarship portal

Need help with FAFSA? Visit studentaid.gov or your campus financial aid office."
  else
    "I can help with financial aid questions including FAFSA, scholarships, grants, and cost planning for UC/CSU transfer students."

/-- `_get_career_counselor_fallback`. -/
def get_career_counselor_fallback (user_lower : String) : String :=
  if strContains user_lower "business" then
    "UC vs CSU for Business Majors:

**UC Business Programs:**
- More research-focused, theoretical approach
- Better for graduate school preparation
- Strong alumni networks in finance/consulting
- Examples: UC Berkeley (Haas), UCLA (Anderson prerequisites)
- More competitive admission, higher costs

**CSU Business Programs:**
- Practical, career-focused curriculum
- Strong industry connections and internships
- Excellent job placement rates
- Examples: SDSU, Cal Poly SLO, SJSU, CSU Fullerton
- More accessible admission, lower costs

**Career Outcomes:**
- Both paths lead to excellent career opportunities
- UC may have slight edge for competitive fields (investment banking, consulting)
- CSU graduates often have strong practical skills valued by employers
- Your performance matters more than the school system

**Recommendation:** Choose based on learning style, career goals, and financial considerations."
  else if ["major", "career", "job"].any (fun word => strContains user_lower word) then
    "Choosing Your Transfer Major:

**Popular Transfer-Friendly Majors:**
- Business Administration
- Psychology
- Engineering (varies by campus)
- Computer Science
- Biology/Pre-health
- Communications
- Liberal Studies (teaching)

**Career Guidance Questions:**
1. What subjects genuinely interest you?
2. What are your natural strengths?
3. What lifestyle do you want (salary, work-life balance)?
4. Are you willing to pursue graduate school?

**Resources:**
- O*NET Interest Profiler (online career assessment)
- Bureau of Labor Statistics for job outlook
- LinkedIn to research professionals in fields
- Informational interviews with alumni

Schedule an appointment with your campus career center for personalized guidance!"
  else
    "I can help with career guidance including major selection, career paths, job market analysis, and UC vs CSU program comparisons."

/-- `_get_academic_advisor_fallback`. -/
def get_academic_advisor_fallback (user_lower : String) : String :=
  if ["difficult", "hard", "struggling", "organic chemistry", "calculus", "physics"].any
      (fun word => strContains user_lower word) then
    "Managing Difficult Courses:

**Study Strategies:**
- Active learning: Teach concepts to others
- Spaced repetition: Review material regularly
- Practice problems: Don\u0027t just read, DO
- Form study groups with serious students
- Use office hours - professors want to help!

**For STEM Courses:**
- Start homework early, don\u0027t procrastinate
- Understand concepts before memorizing formulas
- Use multiple resources (textbook, online videos, tutoring)
- Practice past exams if available

**Campus Resources:**
- Tutoring centers (often free)
- Supplemental Instruction (SI) sessions
- Professor office hours
- Study skills workshops
- Academic counseling

**Time Management:**
- Block schedule for challenging courses
- Break large assignments into smaller tasks
- Use the Pomodoro Technique (25-min focused sessions)

Remember: Struggling is normal! Seek help early, not after you\u0027re already behind."
  else if ["roadmap", "plan", "course", "transfer", "schedule"].any
      (fun word => strContains user_lower word) then
    "Creating Your Transfer Course Roadmap:

**Step 1: Research Requirements**
- Check ASSIST.org for transfer requirements
- Review IGETC (Intersegmental General Education Transfer Curriculum)
- Identify major prerequisites for your target schools

**Step 2: Plan Your Path**
- **Year 1**: Focus on English, Math, and basic major prerequisites
- **Year 2**: Complete remaining IGETC and advanced prerequisites
- Balance difficult courses with easier ones each semester

**Step 3: Key Considerations**
- Complete as many prerequisites as possible before transferring
- Maintain a competitive GPA (3.0+ for CSU, 3.2+ for UC)
- Consider course difficulty and your work schedule

**Resources:**
- ASSIST.org for articulation agreements
- Campus transfer counselors
- Academic advisors at your current college
- UC/CSU Transfer Admission Planner (TAP)

Meet with a counselor to create a personalized roadmap for your major and target schools!"
  else
    "I can help with academic planning including course roadmaps, study strategies, time management, and transfer preparation."

/-- `_get_coordinator_fallback`. -/
def get_coordinator_fallback (user_lower : String) : String :=
  if ["cost", "money", "fafsa", "financial", "scholarship", "afford"].any
      (fun word => strContains user_lower word) then
    "I can help you with financial questions! For detailed financial aid guidance including FAFSA help, scholarship opportunities, and cost comparisons between UC and CSU schools, I\u0027d recommend speaking with our Financial Aid Specialist.

**Quick Financial Aid Overview:**
- Complete FAFSA by March 2nd priority deadline
- UC schools: ~$35-40k total cost, CSU: ~$25-30k total cost
- Many grants and scholarships available for transfer students

Would you like me to connect you with our Financial Aid Specialist for more detailed assistance?"
  else if ["major", "career", "job", "business", "psychology"].any
      (fun word => strContains user_lower word) then
    "I can help you with career and major selection! For guidance on choosing the right major, comparing UC vs CSU programs, and career planning, our Career Counselor would be perfect for your needs.

**Quick Career Guidance:**
- Consider your interests, strengths, and career goals
- Research job market trends and salary expectations
- UC programs tend to be more research-focused
- CSU programs are often more career-practical

Would you like me to connect you with our Career Counselor for personalized guidance?"
  else if ["difficult", "study", "academic", "course", "struggling"].any
      (fun word => strContains user_lower word) then
    "I can help you with academic success strategies! For course difficulty management, study techniques, and academic planning, our Academic Advisor is the right specialist.

**Quick Academic Tips:**
- Start studying early, don\u0027t cram
- Use active learning techniques
- Take advantage of campus tutoring resources
- Build relationships with professors and TAs

Would you like me to connect you with our Academic Advisor for detailed study strategies?"
  else
    "Welcome to your UC/CSU Transfer Counseling System! I\u0027m here to coordinate your questions with our team of specialists:

**Our Specialists:**
🏦 **Financial Aid Specialist** - FAFSA, scholarships, grants, cost planning
👔 **Career Counselor** - Major selection, career paths, job market analysis
📚 **Academic Advisor** - Study strategies, course planning, academic success

**Example Questions:**
- \"How much does it cost to transfer to UC Berkeley?\"
- \"What\u0027s the job market like for psychology majors?\"
- \"I\u0027m struggling with calculus, what study strategies work best?\"
- \"Should I choose UC or CSU for my major?\"

What aspect of your UC/CSU transfer journey would you like guidance on today?"

/-- `_get_default_fallback`. -/
def get_default_fallback (agent_id : String) : String :=
  "I\u0027m here to help with your UC/CSU transfer questions. As your " ++
    pyTitle (replaceUnderscores agent_id) ++
    ", I can assist with topics in my area of expertise. Could you please provide more details about what you\u0027d like to know?"

/-- `get_fallback_response`. -/
def get_fallback_response (user_message agent_id : String) : String :=
  let user_lower := pyLower user_message
  if agent_id = "financial_aid" then get_financial_aid_fallback user_lower
  else if agent_id = "career_counselor" then get_career_counselor_fallback user_lower
  else if agent_id = "course_difficulty" then get_academic_advisor_fallback user_lower
  else if agent_id = "coordinator" then get_coordinator_fallback user_lower
  else get_default_fallback agent_id

/-! ## session.py — `SessionManager`

Timestamps (`datetime.now()` values and their ISO serialisations, which are
ordered the same way) are modelled by integers. -/

abbrev Time := Int

/-- One entry of a `conversation_history` list: the message dicts built by
`process_query` carry `role`, `content`, `timestamp`, `query_type`, and (for
assistant messages) `agent_used`. -/
structure Message where
  role : String
  content : String
  timestamp : Time
  agent_used : Option String
  query_type : String
deriving DecidableEq, Repr

/-- The `SessionContext` dataclass. -/
structure SessionContext where
  session_id : String
  user_id : Option String
  conversation_history : List Message
  shared_context : List (String × String)
  active_agents : List String
  created_at : Time
  last_updated : Time
deriving DecidableEq, Repr

/-- State of a `SessionManager`: the `persistent` flag, the in-memory
`self.sessions` dict (insertion-ordered association list), and the SQLite
`sessions` table (association list keyed by `session_id`, holding the
deserialised row). -/
structure SessionManager where
  persistent : Bool
  sessions : List (String × SessionContext)
  db : List (String × SessionContext)
deriving DecidableEq, Repr

/-- Lookup in an insertion-ordered dict. -/
def memLookup (l : List (String × SessionContext)) (k : String) : Option SessionContext :=
  match l with
  | [] => none
  | p :: t => if p.1 = k then some p.2 else memLookup t k

/-- Python `d[k] = v` on an insertion-ordered dict (and SQLite
`INSERT OR REPLACE`): an existing key keeps its position, a new key goes to
the end. -/
def memInsert (l : List (String × SessionContext)) (k : String) (v : SessionContext) :
    List (String × SessionContext) :=
  match l with
  | [] => [(k, v)]
  | p :: t => if p.1 = k then (k, v) :: t else p :: memInsert t k v

/-- `SessionManager._initialize_db`: on failure of the `CREATE TABLE`
statement the exception is caught and `self.persistent` is set to `False`.
The boolean `fails` says whether this database call raises. -/
def init_db (fails : Bool) (m : SessionManager) : SessionManager :=
  if fails then { m with persistent := false } else m

/-- `SessionManager._save_session`: `INSERT OR REPLACE` of the session row,
keyed by `session.session_id`.  On failure (`sf = true`) the exception is
caught and logged, and nothing else happens — in particular `persistent` is
left unchanged. -/
def save_session (sf : Bool) (s : SessionContext) (m : SessionManager) : SessionManager :=
  if sf then m else { m with db := memInsert m.db s.session_id s }

/-- `SessionManager.create_session`: `session_id` is the fresh uuid. -/
def create_session (sf : Bool) (now : Time) (session_id : String) (user_id : Option String)
    (m : SessionManager) : String × SessionManager :=
  let session : SessionContext :=
    { session_id := session_id
      user_id := user_id
      conversation_history := []
      shared_context := []
      active_agents := []
      created_at := now
      last_updated := now }
  let m1 := { m with sessions := memInsert m.sessions session_id session }
  (session_id, if m1.persistent then save_session sf session m1 else m1)

/-- `SessionManager._load_session` (the database read is modelled as
succeeding; a row is returned when present). -/
def load_session (m : SessionManager) (session_id : String) : Option SessionContext :=
  memLookup m.db session_id

/-- `SessionManager.get_session`: memory first, then (when persistent) the
durable store, caching a rehydrated session back into memory. -/
def get_session (m : SessionManager) (session_id : String) :
    Option SessionContext × SessionManager :=
  match memLookup m.sessions session_id with
  | some s => (some s, m)
  | none =>
    if m.persistent then
      match load_session m session_id with
      | some s => (some s, { m with sessions := memInsert m.sessions session_id s })
      | none => (none, m)
    else (none, m)

/-- `SessionManager.add_to_conversation_history`: when the session does not
exist the call silently does nothing (there is no `else` branch); otherwise
the message is appended, `last_updated` is refreshed and, when persistent,
the session is saved. -/
def add_to_conversation_history (sf : Bool) (now : Time) (m : SessionManager)
    (session_id : String) (message : Message) : SessionManager :=
  match get_session m session_id with
  | (some s, m1) =>
    let s' := { s with
      conversation_history := s.conversation_history ++ [message]
      last_updated := now }
    let m2 := { m1 with sessions := memInsert m1.sessions session_id s' }
    if m2.persistent then save_session sf s' m2 else m2
  | (none, m1) => m1

/-- `SessionManager.get_conversation_history`: `limit` is the optional Python
`int` argument; `if limit:` is false both for `None` and for `0`, and
`history[-limit:]` for a positive `limit` is the suffix of length at most
`limit`. -/
def get_conversation_history (m : SessionManager) (session_id : String)
    (limit : Option Nat) : List Message × SessionManager :=
  match get_session m session_id with
  | (none, m1) => ([], m1)
  | (some s, m1) =>
    let history := s.conversation_history
    match limit with
    | none => (history, m1)
    | some k => if k = 0 then (history, m1) else (history.drop (history.length - k), m1)

/-- `SessionManager.cleanup_old_sessions`: `cutoff = now - hours`; in-memory
sessions with `last_updated < cutoff` are deleted and counted, then (when
persistent) the database `DELETE` removes rows with `last_updated < cutoff`
and its row count is added.  `dbFail` says whether the database `DELETE`
raises (in which case it is caught and logged). -/
def cleanup_old_sessions (now : Time) (hours : Int) (dbFail : Bool) (m : SessionManager) :
    Nat × SessionManager :=
  let cutoff := now - hours
  let to_remove := m.sessions.filter (fun p => decide (p.2.last_updated < cutoff))
  let kept := m.sessions.filter (fun p => !(decide (p.2.last_updated < cutoff)))
  let removed_count := to_remove.length
  if m.persistent && !dbFail then
    let db_removed := (m.db.filter (fun p => decide (p.2.last_updated < cutoff))).length
    (removed_count + db_removed,
      { m with sessions := kept
               db := m.db.filter (fun p => !(decide (p.2.last_updated < cutoff))) })
  else (removed_count, { m with sessions := kept })

/-- Logical content of the store at a given id: what `get_session` would
return, without the caching side effect. -/
def sessionView (m : SessionManager) (session_id : String) : Option SessionContext :=
  match memLookup m.sessions session_id with
  | some s => some s
  | none => if m.persistent then memLookup m.db session_id else none

/-! ## system.py — `EnhancedTransferCounselorSystem` -/

/-- `msg.get("agent_used", "counselor").replace("_", " ").title()`. -/
def displayAgentName (msg : Message) : String :=
  pyTitle (replaceUnderscores (msg.agent_used.getD "counselor"))

/-- The loop of `_build_context_aware_query` over the last messages: builds
`recent_context` and tracks `last_user_query` (the content of the most recent
user message seen, `msg.get("content", "")`). -/
def contextScan (window : List Message) : List String × Option String :=
  window.foldl
    (fun acc msg =>
      if msg.role = "user" then
        (acc.1 ++ ["Student previously asked: " ++ msg.content], some msg.content)
      else if msg.role = "assistant" then
        (acc.1 ++ [displayAgentName msg ++ " responded: " ++ pyTake msg.content 200 ++ "..."],
          acc.2)
      else acc)
    ([], none)

/-- The school-name tokens of the follow-up heuristic. -/
def schoolTokens : List String :=
  ["ucla", "usc", "berkeley", "ucsd", "sdsu", "cal poly", "csun", "sjsu"]

/-- The specialised f-string template emitted for the
same-question-different-school follow-up. -/
def specialTemplate (current_query : String) (recent_context : List String) : String :=
  "Previous conversation context:\n" ++ pyJoin "\n" recent_context ++
    "\n\nCurrent question: " ++ current_query ++
    "\n\nIMPORTANT: The student is asking for the same type of information they previously requested, but for a different school. Please provide the same comprehensive details (overview, costs, financial aid, etc.) that were provided for the previous school, but now for the school mentioned in their current question."

/-- The generic f-string template emitted when context lines exist but the
follow-up pattern does not match. -/
def genericTemplate (current_query : String) (recent_context : List String) : String :=
  "Previous conversation context:\n" ++ pyJoin "\n" recent_context ++
    "\n\nCurrent question: " ++ current_query ++
    "\n\nPlease provide a response that takes into account our previous conversation and builds upon any relevant topics we've discussed."

/-- Python truthiness of `last_user_query` (`None` or a string). -/
def truthyOpt : Option String → Bool
  | none => false
  | some s => !(s = "")

/-- The `current_lower.startswith(("what about", "how about", "and"))` test. -/
def startsWithFollowUp (current_lower : String) : Bool :=
  pyStartsWith current_lower "what about" || pyStartsWith current_lower "how about" ||
    pyStartsWith current_lower "and"

/-- The `any(school in current_lower for school in [...])` test. -/
def mentionsSchool (current_lower : String) : Bool :=
  schoolTokens.any (fun school => strContains current_lower school)

/-- `EnhancedTransferCounselorSystem._build_context_aware_query`. -/
def build_context_aware_query (current_query : String)
    (conversation_history : List Message) : String :=
  if conversation_history.length < 2 then current_query
  else
    let window := conversation_history.drop (conversation_history.length - 6)
    let scanned := contextScan window
    let recent_context := scanned.1
    let last_user_query := scanned.2
    let current_lower := pyLower current_query
    if truthyOpt last_user_query &&
        (startsWithFollowUp current_lower && mentionsSchool current_lower) then
      specialTemplate current_query recent_context
    else if !recent_context.isEmpty then
      genericTemplate current_query recent_context
    else current_query

/-- Environment of a `process_query` call: the `OPENAI_API_KEY` value, whether
`self.agent_manager` was initialised, and the external generator
(`AgentManager.process_with_agent`, taking agent id, query text and session
id), which either returns text or raises. -/
structure ProcessEnv where
  api_key : Option String
  agent_manager_present : Bool
  generator : String → String → String → Except Unit String

/-- `api_key and api_key.startswith('sk-')`. -/
def apiKeyOk : Option String → Bool
  | none => false
  | some k => !(k = "") && pyStartsWith k "sk-"

/-- The dictionary returned by `process_query` (common fields of the success
and fallback shapes). -/
structure ProcessResult where
  response : String
  agent_used : String
  session_id : String
  status : String
  conversation_turn : Nat
  has_context : Bool
  context_messages : Nat

/-- `EnhancedTransferCounselorSystem.process_query`, for one invocation whose
only raising operation is the external generator call.  The generator call
sits in its own inner `try`; when it raises, the `except` on that inner `try`
substitutes `_generate_fallback_response` and control continues to the normal
`return` of the outer `try`, whose `status` field is the literal `"success"`.
The outer `except` (which returns `status == "fallback"`) is reached only
when some operation other than the generator call raises; session bookkeeping
and tracing do not raise under normal operation, so it is not modelled here.
The `@with_retry` decorator re-invokes `process_query` only when
`process_query` itself raises, which this invocation never does. -/
def process_query (env : ProcessEnv) (sf : Bool) (now : Time) (fresh_id : String)
    (m : SessionManager) (student_query : String) (session_id : Option String)
    (user_id : Option String) : ProcessResult × SessionManager :=
  let resolved := match session_id with
    | none => create_session sf now fresh_id user_id m
    | some sid => (sid, m)
  let sid := resolved.1
  let m0 := resolved.2
  let fetched := get_conversation_history m0 sid (some 10)
  let conversation_history := fetched.1
  let m1 := fetched.2
  let query_message : Message :=
    { role := "user", content := student_query, timestamp := now,
      agent_used := none, query_type := "student_question" }
  let m2 := add_to_conversation_history sf now m1 sid query_message
  let agent_to_use := route_query student_query
  let response_content :=
    if apiKeyOk env.api_key && env.agent_manager_present then
      match env.generator agent_to_use
          (build_context_aware_query student_query conversation_history) sid with
      | Except.ok t => t
      | Except.error _ => get_fallback_response student_query agent_to_use
    else get_fallback_response student_query agent_to_use
  let response_message : Message :=
    { role := "assistant", content := response_content, timestamp := now,
      agent_used := some agent_to_use, query_type := "agent_response" }
  let m3 := add_to_conversation_history sf now m2 sid response_message
  ({ response := response_content
     agent_used := agent_to_use
     session_id := sid
     status := "success"
     conversation_turn := conversation_history.length / 2 + 1
     has_context := decide (conversation_history.length > 0)
     context_messages := conversation_history.length }, m3)

/-! ## Derived operations and concrete fixtures -/

/-- Appending a list of messages one call at a time through
`add_to_conversation_history`. -/
def appendMessages (sf : Bool) (now : Time) (m : SessionManager) (sid : String)
    (msgs : List Message) : SessionManager :=
  msgs.foldl (fun mm msg => add_to_conversation_history sf now mm sid msg) m

/-- History fixture of the specification example: a first exchange about
costs at UCLA. -/
def exampleHistory : List Message :=
  [ { role := "user", content := "cost at UCLA?", timestamp := 0,
      agent_used := none, query_type := "student_question" },
    { role := "assistant", content := "...$40k...", timestamp := 1,
      agent_used := some "financial_aid", query_type := "agent_response" } ]

/-- A user message fixture. -/
def msgU : Message :=
  { role := "user", content := "hi there", timestamp := 0,
    agent_used := none, query_type := "student_question" }

/-- A second user message fixture. -/
def msgU2 : Message :=
  { role := "user", content := "another question", timestamp := 2,
    agent_used := none, query_type := "student_question" }

/-- An assistant message fixture. -/
def msgA : Message :=
  { role := "assistant", content := "an answer", timestamp := 1,
    agent_used := some "coordinator", query_type := "agent_response" }

/-- A session fixture with an empty history, last updated at time 0. -/
def sess0 : SessionContext :=
  { session_id := "s1", user_id := none, conversation_history := [],
    shared_context := [], active_agents := [], created_at := 0, last_updated := 0 }

/-- A persistent manager holding no sessions. -/
def mgrEmpty : SessionManager :=
  { persistent := true, sessions := [], db := [] }

/-- A persistent manager holding the single session `s1`, resident both in
memory and in the durable store. -/
def mgrBoth : SessionManager :=
  { persistent := true, sessions := [("s1", sess0)], db := [("s1", sess0)] }

/-- An environment whose external generator raises on every attempt. -/
def failEnv : ProcessEnv :=
  { api_key := some "sk-test", agent_manager_present := true,
    generator := fun _ _ _ => Except.error () }

/-! ## Helper lemmas -/

theorem find3 {α : Type} (p : α → Bool) (x y z : α) :
    List.find? p [x, y, z] =
      if p x then some x else if p y then some y else if p z then some z else none := by
  cases hx : p x <;> cases hy : p y <;> cases hz : p z <;> simp [List.find?, hx, hy, hz]

theorem select_agree (a b c : String) (s1 s2 s3 : Nat) :
    (match maxByScore (([(a, s1), (b, s2), (c, s3)]).filter (fun p => decide (0 < p.2))) with
     | some best => best.1
     | none => "coordinator")
    = (let best := ([(a, s1), (b, s2), (c, s3)].map Prod.snd).foldl max 0
       if best = 0 then "coordinator"
       else
         match [(a, s1), (b, s2), (c, s3)].find? (fun p => p.2 == best) with
         | some p => p.1
         | none => "coordinator") := by
  simp only [List.map_cons, List.map_nil, List.foldl_cons, List.foldl_nil, find3, beq_iff_eq]
  rcases Nat.eq_zero_or_pos s1 with h1 | h1 <;>
    rcases Nat.eq_zero_or_pos s2 with h2 | h2 <;>
      rcases Nat.eq_zero_or_pos s3 with h3 | h3 <;>
        simp [maxByScore, h1, h2, h3] <;>
        split_ifs <;> first | rfl | omega

/-- The routed agent agrees with the specification-worded selection rule. -/
theorem routing_agree (q : String) : route_query q = route_query_spec q := by
  unfold route_query route_query_spec positiveScores keywordScore
  simp only [agent_keywords, List.map_cons, List.map_nil]
  exact select_agree _ _ _ _ _ _

/-- `route_query` only ever produces the three table identifiers or the
default `coordinator`. -/
theorem route_query_mem (q : String) :
    route_query q = "financial_aid" ∨ route_query q = "course_difficulty" ∨
    route_query q = "career_counselor" ∨ route_query q = "coordinator" := by
  rw [routing_agree]
  unfold route_query_spec
  simp only [agent_keywords, List.map_cons, List.map_nil, find3]
  split_ifs <;> simp

theorem memLookup_insert_self (l : List (String × SessionContext)) (k : String)
    (v : SessionContext) : memLookup (memInsert l k v) k = some v := by
  induction l with
  | nil => simp [memInsert, memLookup]
  | cons p t ih =>
    by_cases h : p.1 = k <;> simp [memInsert, memLookup, h, ih]

theorem memLookup_insert_ne (l : List (String × SessionContext)) (k : String)
    (v : SessionContext) (k' : String) (h : k' ≠ k) :
    memLookup (memInsert l k v) k' = memLookup l k' := by
  have h2 : ¬ (k = k') := fun e => h e.symm
  induction l with
  | nil => simp [memInsert, memLookup, h2]
  | cons p t ih =>
    by_cases hp : p.1 = k
    · simp [memInsert, memLookup, hp, h2]
    · simp [memInsert, memLookup, hp, ih]

theorem sessionView_of_mem (m : SessionManager) (sid : String) (s : SessionContext)
    (h : memLookup m.sessions sid = some s) : sessionView m sid = some s := by
  unfold sessionView
  rw [h]

theorem get_session_fst (m : SessionManager) (sid : String) :
    (get_session m sid).1 = sessionView m sid := by
  unfold get_session sessionView load_session
  cases hm : memLookup m.sessions sid
  · cases hp : m.persistent
    · simp [hp]
    · cases hd : memLookup m.db sid <;> simp [hp, hd]
  · simp

theorem get_session_snd_persistent (m : SessionManager) (sid : String) :
    (get_session m sid).2.persistent = m.persistent := by
  unfold get_session load_session
  cases hm : memLookup m.sessions sid
  · cases hp : m.persistent
    · simp [hp]
    · cases hd : memLookup m.db sid <;> simp [hp, hd]
  · simp

theorem get_session_snd_db (m : SessionManager) (sid : String) :
    (get_session m sid).2.db = m.db := by
  unfold get_session load_session
  cases hm : memLookup m.sessions sid
  · cases hp : m.persistent
    · simp [hp]
    · cases hd : memLookup m.db sid <;> simp [hp, hd]
  · simp

theorem get_session_view (m : SessionManager) (sid : String) (idq : String) :
    sessionView (get_session m sid).2 idq = sessionView m idq := by
  unfold get_session
  cases hm : memLookup m.sessions sid
  · cases hp : m.persistent
    · simp [hp]
    · cases hd : memLookup m.db sid
      · simp [hp, load_session, hd]
      · simp only [hp, load_session, hd]
        unfold sessionView
        by_cases he : idq = sid
        · subst he
          simp [memLookup_insert_self, hm, hp, hd]
        · simp [memLookup_insert_ne _ _ _ _ he, hp]
  · simp

theorem get_session_not_found (m : SessionManager) (sid : String)
    (h : sessionView m sid = none) : get_session m sid = (none, m) := by
  unfold sessionView at h
  unfold get_session
  cases hm : memLookup m.sessions sid
  · rw [hm] at h
    cases hp : m.persistent
    · simp [hp]
    · rw [hp] at h
      simp at h
      cases hd : load_session m sid
      · simp [hp, hd]
      · unfold load_session at hd
        rw [hd] at h
        simp at h
  · rw [hm] at h
    simp at h

theorem add_found (sf : Bool) (now : Time) (m : SessionManager) (sid : String)
    (msg : Message) (s : SessionContext) (h : sessionView m sid = some s) :
    memLookup (add_to_conversation_history sf now m sid msg).sessions sid =
      some { s with conversation_history := s.conversation_history ++ [msg],
                    last_updated := now } ∧
    (add_to_conversation_history sf now m sid msg).persistent = m.persistent ∧
    (m.persistent = true → sf = false →
      memLookup (add_to_conversation_history sf now m sid msg).db s.session_id =
        some { s with conversation_history := s.conversation_history ++ [msg],
                      last_updated := now }) ∧
    (sf = true → (add_to_conversation_history sf now m sid msg).db = m.db) ∧
    (m.persistent = false → (add_to_conversation_history sf now m sid msg).db = m.db) := by
  have h1 : (get_session m sid).1 = some s := by rw [get_session_fst]; exact h
  have hper : (get_session m sid).2.persistent = m.persistent := get_session_snd_persistent m sid
  have hdb : (get_session m sid).2.db = m.db := get_session_snd_db m sid
  unfold add_to_conversation_history
  rcases hgs : get_session m sid with ⟨os, m1⟩
  rw [hgs] at h1 hper hdb
  simp at h1 hper hdb
  subst h1
  simp only [hgs]
  refine ⟨?_, ?_, ?_, ?_, ?_⟩
  · unfold save_session
    split_ifs <;> simp [memLookup_insert_self]
  · unfold save_session
    split_ifs <;> simp [hper]
  · intro hpt hsf
    subst hsf
    unfold save_session
    simp [hper, hpt, memLookup_insert_self]
  · intro hsf
    subst hsf
    unfold save_session
    split_ifs <;> simp_all [hdb]
  · intro hpf
    unfold save_session
    simp [hper, hpf, hdb]

theorem read_history (m : SessionManager) (sid : String) (s : SessionContext)
    (h : sessionView m sid = some s) :
    (get_conversation_history m sid none).1 = s.conversation_history ∧
    (∀ k : Nat, k ≠ 0 → (get_conversation_history m sid (some k)).1 =
      s.conversation_history.drop (s.conversation_history.length - k)) := by
  have h1 : (get_session m sid).1 = some s := by rw [get_session_fst]; exact h
  unfold get_conversation_history
  rcases hgs : get_session m sid with ⟨os, m1⟩
  rw [hgs] at h1
  simp at h1
  subst h1
  simp only [hgs]
  constructor
  · trivial
  · intro k hk
    simp [hk]

theorem read_view (m : SessionManager) (sid : String) (lim : Option Nat) (idq : String) :
    sessionView ((get_conversation_history m sid lim).2) idq = sessionView m idq := by
  have hv := get_session_view m sid idq
  unfold get_conversation_history
  rcases hgs : get_session m sid with ⟨os, m1⟩
  rw [hgs] at hv
  cases os <;> rcases lim with _ | k <;> simp only [hgs] <;> try exact hv
  split_ifs <;> exact hv

theorem appendMessages_found (sf : Bool) (now : Time) (msgs : List Message) :
    ∀ (m : SessionManager) (sid : String) (s : SessionContext),
      sessionView m sid = some s →
      ∃ s', sessionView (appendMessages sf now m sid msgs) sid = some s' ∧
        s'.conversation_history = s.conversation_history ++ msgs := by
  induction msgs with
  | nil =>
    intro m sid s h
    exact ⟨s, by simpa [appendMessages] using h, by simp⟩
  | cons msg rest ih =>
    intro m sid s h
    have ha := add_found sf now m sid msg s h
    have hv : sessionView (add_to_conversation_history sf now m sid msg) sid =
        some { s with conversation_history := s.conversation_history ++ [msg],
                      last_updated := now } :=
      sessionView_of_mem _ _ _ ha.1
    obtain ⟨s', hs', hh⟩ := ih (add_to_conversation_history sf now m sid msg) sid _ hv
    refine ⟨s', ?_, ?_⟩
    · simpa [appendMessages, List.foldl_cons] using hs'
    · rw [hh]
      simp

theorem string_eq_of_data (a b : String) (h : a.data = b.data) : a = b := by
  cases a
  cases b
  simp only at h
  rw [h]

theorem str_append_data (a b : String) : (a ++ b).data = a.data ++ b.data := rfl

theorem append_left_ne_empty (s t : String) (h : s ≠ "") : s ++ t ≠ "" := by
  intro he
  apply h
  have hd : s.data ++ t.data = ([] : List Char) := by
    have h2 := congrArg String.data he
    rw [str_append_data] at h2
    simpa using h2
  exact string_eq_of_data s "" (by simpa using (List.append_eq_nil.mp hd).1)

theorem financial_fallback_ne (u : String) : get_financial_aid_fallback u ≠ "" := by
  unfold get_financial_aid_fallback
  split_ifs <;> decide

theorem career_fallback_ne (u : String) : get_career_counselor_fallback u ≠ "" := by
  unfold get_career_counselor_fallback
  split_ifs <;> decide

theorem academic_fallback_ne (u : String) : get_academic_advisor_fallback u ≠ "" := by
  unfold get_academic_advisor_fallback
  split_ifs <;> decide

theorem coordinator_fallback_ne (u : String) : get_coordinator_fallback u ≠ "" := by
  unfold get_coordinator_fallback
  split_ifs <;> decide

theorem default_fallback_ne (a : String) : get_default_fallback a ≠ "" := by
  unfold get_default_fallback
  apply append_left_ne_empty
  apply append_left_ne_empty
  decide

theorem fallback_response_ne_empty (q a : String) : get_fallback_response q a ≠ "" := by
  unfold get_fallback_response
  split_ifs
  · exact financial_fallback_ne _
  · exact career_fallback_ne _
  · exact academic_fallback_ne _
  · exact coordinator_fallback_ne _
  · exact default_fallback_ne _

theorem containsList_append_right (n t : List Char) (h : containsList n t = true)
    (s : List Char) : containsList n (s ++ t) = true := by
  induction s with
  | nil => simpa using h
  | cons c cs ih => simp [containsList, ih]

theorem strContains_append_right (a b pat : String) (h : strContains b pat = true) :
    strContains (a ++ b) pat = true := by
  unfold strContains at *
  rw [str_append_data]
  exact containsList_append_right _ _ h _

theorem specialTemplate_contains (q : String) (lines : List String) :
    strContains (specialTemplate q lines) "different school" = true := by
  unfold specialTemplate
  apply strContains_append_right
  decide

/-! ## Claims -/

/-- C1 (counterexample): with the external generator raising on every
attempt, `process_query` returns with `status = "success"`, not with
`status = "fallback"` as the claim states — the generator failure is caught
by the inner `except` and control reaches the normal success return. -/
theorem claim_C1_counterexample :
    (process_query failEnv false 0 "session-1" mgrEmpty "hello" none none).1.status =
      "success" ∧
    (process_query failEnv false 0 "session-1" mgrEmpty "hello" none none).1.status ≠
      "fallback" :=
  ⟨rfl, by decide⟩

/-- C1 (amended): for every query, if the external generator call raises on
every attempt, `process_query` still returns normally, its response text is
the non-empty static fallback text for the routed specialist, and its status
field equals `"success"` (the `"fallback"` status is produced only when an
exception occurs outside the generator call). -/
theorem claim_C1 (env : ProcessEnv) (sf : Bool) (now : Time) (fid : String)
    (m : SessionManager) (q : String) (sid : Option String) (uid : Option String)
    (hgen : ∀ a b c, env.generator a b c = Except.error ()) :
    (process_query env sf now fid m q sid uid).1.status = "success" ∧
    (process_query env sf now fid m q sid uid).1.response =
      get_fallback_response q (route_query q) ∧
    (process_query env sf now fid m q sid uid).1.response ≠ "" := by
  have hr : (process_query env sf now fid m q sid uid).1.response =
      get_fallback_response q (route_query q) := by
    simp only [process_query, hgen]
    rw [ite_self]
  exact ⟨rfl, hr, by rw [hr]; exact fallback_response_ne_empty _ _⟩

/-- C1 (witness): the amended theorem applied to a concrete failing
environment and query. -/
theorem claim_C1_witness :
    (∀ a b c, failEnv.generator a b c = Except.error ()) ∧
    ((process_query failEnv false 0 "session-1" mgrEmpty "hello" none none).1.status =
        "success" ∧
      (process_query failEnv false 0 "session-1" mgrEmpty "hello" none none).1.response =
        get_fallback_response "hello" (route_query "hello") ∧
      (process_query failEnv false 0 "session-1" mgrEmpty "hello" none none).1.response ≠ "") :=
  ⟨fun _ _ _ => rfl,
   claim_C1 failEnv false 0 "session-1" mgrEmpty "hello" none none (fun _ _ _ => rfl)⟩

/-- C2: for every query string, `route_query` lower-cases the query, scores
each specialist by the number of its keyword strings occurring as substrings
of the lowered query, and returns the first specialist in keyword-table
definition order achieving the maximum score (`route_query_spec` is that rule
verbatim); when every specialist scores zero — in particular on the empty
string — it returns `coordinator`; the Lean embedding is a total function, as
the claim requires. -/
theorem claim_C2 (q : String) :
    route_query q = route_query_spec q ∧ route_query "" = "coordinator" :=
  ⟨routing_agree q, by decide⟩

/-- C3 (counterexample): calling `add_to_conversation_history` with a session
id for which no session exists silently succeeds as a no-op — the state is
returned unchanged, no error of any kind is signalled and no session is
created — contradicting the claimed NotFound failure. -/
theorem claim_C3_counterexample :
    sessionView mgrEmpty "missing-session" = none ∧
    add_to_conversation_history false 7 mgrEmpty "missing-session" msgU = mgrEmpty := by
  decide

/-- C3 (amended): if `add_to_conversation_history` is called with a session id
for which no session exists, it silently does nothing (no error, no session
created, state unchanged); otherwise it appends the message, sets the
last-updated timestamp to the current time, and — when the store is
persistent and the durable write succeeds — persists the updated session. -/
theorem claim_C3 (sf : Bool) (now : Time) (m : SessionManager) (sid : String)
    (msg : Message) :
    (sessionView m sid = none → add_to_conversation_history sf now m sid msg = m) ∧
    (∀ s, sessionView m sid = some s →
      memLookup (add_to_conversation_history sf now m sid msg).sessions sid =
        some { s with conversation_history := s.conversation_history ++ [msg],
                      last_updated := now } ∧
      (m.persistent = true → sf = false →
        memLookup (add_to_conversation_history sf now m sid msg).db s.session_id =
          some { s with conversation_history := s.conversation_history ++ [msg],
                        last_updated := now })) := by
  constructor
  · intro hn
    unfold add_to_conversation_history
    rw [get_session_not_found m sid hn]
  · intro s hs
    have ha := add_found sf now m sid msg s hs
    exact ⟨ha.1, ha.2.2.1⟩

/-- C3 (witness): the amended theorem applied to a concrete missing session
and to a concrete existing session. -/
theorem claim_C3_witness :
    sessionView mgrEmpty "nope" = none ∧
    add_to_conversation_history false 3 mgrEmpty "nope" msgU = mgrEmpty ∧
    sessionView mgrBoth "s1" = some sess0 ∧
    memLookup (add_to_conversation_history false 3 mgrBoth "s1" msgU).sessions "s1" =
      some { sess0 with conversation_history := sess0.conversation_history ++ [msgU],
                        last_updated := 3 } ∧
    (mgrBoth.persistent = true → false = false →
      memLookup (add_to_conversation_history false 3 mgrBoth "s1" msgU).db sess0.session_id =
        some { sess0 with conversation_history := sess0.conversation_history ++ [msgU],
                          last_updated := 3 }) :=
  ⟨by decide, (claim_C3 false 3 mgrEmpty "nope" msgU).1 (by decide), by decide,
   ((claim_C3 false 3 mgrBoth "s1" msgU).2 sess0 (by decide)).1,
   ((claim_C3 false 3 mgrBoth "s1" msgU).2 sess0 (by decide)).2⟩

/-- C4 (counterexample): after a mutation whose durable write fails, the store
does not enter memory-only mode: the `persistent` flag is still `true`, and a
later mutation performs a further durable write (the database changes). -/
theorem claim_C4_counterexample :
    (add_to_conversation_history true 1 mgrBoth "s1" msgU).persistent = true ∧
    (add_to_conversation_history true 1 mgrBoth "s1" msgU).db = mgrBoth.db ∧
    (add_to_conversation_history false 2
        (add_to_conversation_history true 1 mgrBoth "s1" msgU) "s1" msgU2).db ≠
      (add_to_conversation_history true 1 mgrBoth "s1" msgU).db := by
  decide

/-- C4 (amended): a failed durable write during a mutation is logged and not
retried, the mutating call still succeeds (the in-memory session is updated)
and the durable store is left untouched; but the store does not degrade to
memory-only mode — the `persistent` flag is unchanged and later mutations
still attempt durable writes.  Only a failure of database initialisation
switches the store to memory-only mode. -/
theorem claim_C4 (now : Time) (m : SessionManager) (sid : String) (msg : Message)
    (s : SessionContext) (hs : sessionView m sid = some s) :
    (add_to_conversation_history true now m sid msg).persistent = m.persistent ∧
    (add_to_conversation_history true now m sid msg).db = m.db ∧
    memLookup (add_to_conversation_history true now m sid msg).sessions sid =
      some { s with conversation_history := s.conversation_history ++ [msg],
                    last_updated := now } ∧
    (init_db true m).persistent = false := by
  have ha := add_found true now m sid msg s hs
  exact ⟨ha.2.1, ha.2.2.2.1 rfl, ha.1, by simp [init_db]⟩

/-- C4 (witness): the amended theorem applied to a concrete session store. -/
theorem claim_C4_witness :
    sessionView mgrBoth "s1" = some sess0 ∧
    ((add_to_conversation_history true 4 mgrBoth "s1" msgU).persistent =
        mgrBoth.persistent ∧
      (add_to_conversation_history true 4 mgrBoth "s1" msgU).db = mgrBoth.db ∧
      memLookup (add_to_conversation_history true 4 mgrBoth "s1" msgU).sessions "s1" =
        some { sess0 with conversation_history := sess0.conversation_history ++ [msgU],
                          last_updated := 4 } ∧
      (init_db true mgrBoth).persistent = false) :=
  ⟨by decide, claim_C4 4 mgrBoth "s1" msgU sess0 (by decide)⟩

/-- C5 (counterexample): `cleanup_old_sessions` does not return the number of
sessions removed: for a store holding exactly one session, resident in both
memory and the durable store, cleanup reports 2 removals (the session is
counted once per tier).  Moreover with `max_age = 0` a session whose
last-updated timestamp equals `now` is not removed, so `max_age = 0` does not
remove all sessions. -/
theorem claim_C5_counterexample :
    mgrBoth.sessions.length = 1 ∧ mgrBoth.db.length = 1 ∧
    mgrBoth.sessions.map Prod.fst = mgrBoth.db.map Prod.fst ∧
    (cleanup_old_sessions 10 0 false mgrBoth).1 = 2 ∧
    (cleanup_old_sessions 0 0 false mgrBoth).2.sessions = mgrBoth.sessions ∧
    (cleanup_old_sessions 0 0 false mgrBoth).1 = 0 := by
  decide

/-- C5 (amended): for a persistent store whose database delete succeeds,
cleanup removes from memory and from durable storage exactly the sessions
whose last-updated timestamp is strictly older than `now - max_age`, and
returns the number of in-memory sessions removed plus the number of durable
rows deleted (a session present in both tiers is counted twice); when no
stored timestamp is older than the cutoff — in particular for unbounded
`max_age` — nothing is removed and the count is 0. -/
theorem claim_C5 (now : Time) (hours : Int) (m : SessionManager)
    (hp : m.persistent = true) :
    (cleanup_old_sessions now hours false m).2.sessions =
      m.sessions.filter (fun p => !(decide (p.2.last_updated < now - hours))) ∧
    (cleanup_old_sessions now hours false m).2.db =
      m.db.filter (fun p => !(decide (p.2.last_updated < now - hours))) ∧
    (cleanup_old_sessions now hours false m).1 =
      (m.sessions.filter (fun p => decide (p.2.last_updated < now - hours))).length +
      (m.db.filter (fun p => decide (p.2.last_updated < now - hours))).length ∧
    ((∀ p ∈ m.sessions, ¬ (p.2.last_updated < now - hours)) →
     (∀ p ∈ m.db, ¬ (p.2.last_updated < now - hours)) →
      (cleanup_old_sessions now hours false m).2 = m ∧
      (cleanup_old_sessions now hours false m).1 = 0) := by
  rcases m with ⟨per, sess, db⟩
  simp only at hp
  subst hp
  unfold cleanup_old_sessions
  simp only [Bool.not_false, Bool.and_true, if_true]
  refine ⟨trivial, trivial, trivial, ?_⟩
  intro h1 h2
  have e1 : sess.filter (fun p => !(decide (p.2.last_updated < now - hours))) = sess := by
    rw [List.filter_eq_self]
    intro p hpm
    simpa using h1 p hpm
  have e2 : db.filter (fun p => !(decide (p.2.last_updated < now - hours))) = db := by
    rw [List.filter_eq_self]
    intro p hpm
    simpa using h2 p hpm
  have e3 : sess.filter (fun p => decide (p.2.last_updated < now - hours)) = [] := by
    rw [List.filter_eq_nil_iff]
    intro p hpm
    simpa using h1 p hpm
  have e4 : db.filter (fun p => decide (p.2.last_updated < now - hours)) = [] := by
    rw [List.filter_eq_nil_iff]
    intro p hpm
    simpa using h2 p hpm
  constructor
  · simp [e1, e2]
  · simp [e3, e4]

/-- C5 (witness): the amended theorem applied to a concrete persistent
store. -/
theorem claim_C5_witness :
    mgrBoth.persistent = true ∧
    ((cleanup_old_sessions 10 3 false mgrBoth).2.sessions =
        mgrBoth.sessions.filter (fun p => !(decide (p.2.last_updated < 10 - 3))) ∧
      (cleanup_old_sessions 10 3 false mgrBoth).2.db =
        mgrBoth.db.filter (fun p => !(decide (p.2.last_updated < 10 - 3))) ∧
      (cleanup_old_sessions 10 3 false mgrBoth).1 =
        (mgrBoth.sessions.filter (fun p => decide (p.2.last_updated < 10 - 3))).length +
        (mgrBoth.db.filter (fun p => decide (p.2.last_updated < 10 - 3))).length ∧
      ((∀ p ∈ mgrBoth.sessions, ¬ (p.2.last_updated < 10 - 3)) →
       (∀ p ∈ mgrBoth.db, ¬ (p.2.last_updated < 10 - 3)) →
        (cleanup_old_sessions 10 3 false mgrBoth).2 = mgrBoth ∧
        (cleanup_old_sessions 10 3 false mgrBoth).1 = 0)) :=
  ⟨rfl, claim_C5 10 3 mgrBoth rfl⟩

/-- C6: when the history has at least two entries, its last-6 window contains
a user message with non-empty content, and the current query (lower-cased)
starts with one of \"what about\", \"how about\", \"and\" and mentions one of
the school tokens, `_build_context_aware_query` returns the specialised
template built from the prior context lines, which contains the literal
substring \"different school\"; in particular for the history
[user: \"cost at UCLA?\", assistant: \"...$40k...\"] and the query
\"what about Berkeley\" the output contains \"different school\" and
references \"UCLA\". -/
theorem claim_C6 (q : String) (history : List Message)
    (hlen : 2 ≤ history.length)
    (huser : truthyOpt (contextScan (history.drop (history.length - 6))).2 = true)
    (hstart : startsWithFollowUp (pyLower q) = true)
    (hschool : mentionsSchool (pyLower q) = true) :
    build_context_aware_query q history =
      specialTemplate q (contextScan (history.drop (history.length - 6))).1 ∧
    strContains (build_context_aware_query q history) "different school" = true ∧
    strContains (build_context_aware_query "what about Berkeley" exampleHistory)
      "different school" = true ∧
    strContains (build_context_aware_query "what about Berkeley" exampleHistory)
      "UCLA" = true := by
  have hcond : (truthyOpt (contextScan (history.drop (history.length - 6))).2 &&
      (startsWithFollowUp (pyLower q) && mentionsSchool (pyLower q))) = true := by
    rw [huser, hstart, hschool]
    rfl
  have heq : build_context_aware_query q history =
      specialTemplate q (contextScan (history.drop (history.length - 6))).1 := by
    unfold build_context_aware_query
    rw [if_neg (by omega : ¬ history.length < 2)]
    simp only [hcond, if_true]
  refine ⟨heq, ?_, ?_, ?_⟩
  · rw [heq]
    exact specialTemplate_contains q _
  · decide
  · decide

/-- C6 (witness): the theorem applied to the specification example, the
history [user: \"cost at UCLA?\", assistant: \"...$40k...\"] with the query
\"what about Berkeley\". -/
theorem claim_C6_witness :
    2 ≤ exampleHistory.length ∧
    truthyOpt (contextScan (exampleHistory.drop (exampleHistory.length - 6))).2 = true ∧
    startsWithFollowUp (pyLower "what about Berkeley") = true ∧
    mentionsSchool (pyLower "what about Berkeley") = true ∧
    (build_context_aware_query "what about Berkeley" exampleHistory =
      specialTemplate "what about Berkeley"
        (contextScan (exampleHistory.drop (exampleHistory.length - 6))).1 ∧
    strContains (build_context_aware_query "what about Berkeley" exampleHistory)
      "different school" = true ∧
    strContains (build_context_aware_query "what about Berkeley" exampleHistory)
      "different school" = true ∧
    strContains (build_context_aware_query "what about Berkeley" exampleHistory)
      "UCLA" = true) :=
  ⟨by decide, by decide, by decide, by decide,
   claim_C6 "what about Berkeley" exampleHistory (by decide) (by decide) (by decide)
     (by decide)⟩

/-- C7: for a session existing with empty history, appending N messages in
order and reading the full history returns exactly those N messages in
insertion order; reading with a limit `k ≥ 1` returns the most recent `k`
messages in original order (the suffix of length at most `k`); and the
history read never mutates any stored session (the logical view of the store
at every id is unchanged by the read). -/
theorem claim_C7 (sf : Bool) (now : Time) (m : SessionManager) (sid : String)
    (s : SessionContext) (msgs : List Message) (k : Nat)
    (hs : sessionView m sid = some s) (hempty : s.conversation_history = [])
    (hk : 1 ≤ k) :
    (get_conversation_history (appendMessages sf now m sid msgs) sid none).1 = msgs ∧
    (get_conversation_history (appendMessages sf now m sid msgs) sid (some k)).1 =
      msgs.drop (msgs.length - k) ∧
    (∀ idq lim,
      sessionView ((get_conversation_history (appendMessages sf now m sid msgs) sid lim).2)
          idq =
        sessionView (appendMessages sf now m sid msgs) idq) := by
  obtain ⟨s2, hs2, hh⟩ := appendMessages_found sf now msgs m sid s hs
  have hfull := read_history _ sid s2 hs2
  have hh2 : s2.conversation_history = msgs := by rw [hh, hempty]; simp
  refine ⟨?_, ?_, ?_⟩
  · rw [hfull.1, hh2]
  · rw [hfull.2 k (by omega), hh2]
  · intro idq lim
    exact read_view _ sid lim idq

/-- C7 (witness): the theorem applied to a concrete fresh session and three
concrete messages, read back in full and with limit 2. -/
theorem claim_C7_witness :
    sessionView mgrBoth "s1" = some sess0 ∧ sess0.conversation_history = [] ∧ 1 ≤ 2 ∧
    ((get_conversation_history (appendMessages false 5 mgrBoth "s1" [msgU, msgA, msgU2])
        "s1" none).1 = [msgU, msgA, msgU2] ∧
      (get_conversation_history (appendMessages false 5 mgrBoth "s1" [msgU, msgA, msgU2])
        "s1" (some 2)).1 = [msgU, msgA, msgU2].drop ([msgU, msgA, msgU2].length - 2) ∧
      (∀ idq lim,
        sessionView ((get_conversation_history
            (appendMessages false 5 mgrBoth "s1" [msgU, msgA, msgU2]) "s1" lim).2) idq =
          sessionView (appendMessages false 5 mgrBoth "s1" [msgU, msgA, msgU2]) idq)) :=
  ⟨by decide, rfl, by decide,
   claim_C7 false 5 mgrBoth "s1" sess0 [msgU, msgA, msgU2] 2 (by decide) rfl (by decide)⟩

/-- C8: for every query string, the selected specialist reported by
`get_routing_explanation` equals the result of `route_query`, and the
per-specialist scores it reports are exactly the scores `route_query`
computes (it uses the identical scoring function). -/
theorem claim_C8 (q : String) :
    (get_routing_explanation q).selected_agent = route_query q ∧
    (get_routing_explanation q).agent_scores.map (fun p => (p.1, p.2.1)) =
      agent_keywords.map (fun p => (p.1, keywordScore (pyLower q) p.2)) := by
  constructor
  · rfl
  · simp [get_routing_explanation, keywordScore, List.countP_eq_length_filter]

/-- C9: for every current query and every history with fewer than two
entries, `_build_context_aware_query` returns the current query unchanged. -/
theorem claim_C9 (q : String) (history : List Message) (h : history.length < 2) :
    build_context_aware_query q history = q := by
  unfold build_context_aware_query
  rw [if_pos h]

/-- C9 (witness): the theorem applied to the empty history. -/
theorem claim_C9_witness :
    ([] : List Message).length < 2 ∧
    build_context_aware_query "what about Berkeley costs" [] =
      "what about Berkeley costs" :=
  ⟨by decide, claim_C9 "what about Berkeley costs" [] (by decide)⟩

/-- C10: for every store and session id, reading the conversation history
with an explicit limit of 0 returns exactly what reading with no limit
returns — the full history (Python `if limit:` treats 0 like None). -/
theorem claim_C10 (m : SessionManager) (sid : String) :
    get_conversation_history m sid (some 0) = get_conversation_history m sid none := by
  unfold get_conversation_history
  rcases hgs : get_session m sid with ⟨os, m1⟩
  cases os <;> simp

end TransferCounselor
